import Mathlib

set_option maxHeartbeats 1000000

namespace SoundThemeMaker

/-! Shallow embedding of the sound-theme-maker repository: the
progress-bar object and the base invocation helper of
py_kdialog.py, and the Theme model with the editor actions of
soundthememaker.py.  External effects are made explicit and
deterministic: the control-bus (qdbus) calls issued by a progress-bar
operation are returned as a list of transport calls, the success of a
D-Bus push is a boolean parameter, dialog answers are passed in as
Option values, and filesystem existence is a String to Bool oracle.
A raised Python exception is modelled as an error value carrying the
object state at the moment of the raise, since the callers observe
that state afterwards. -/

/-- Error signalled by a progress-bar operation, mirroring the exception
raised by the corresponding method of ProgressBar in py_kdialog.py:
rangeErr is the ValueError of the progress setter for an out-of-range
value, closedErr is the ValueError raised by update or increment on a
closed bar, cancelledErr is CancelledError raised when the qdbus push
fails. -/
inductive PBErr where
  | rangeErr
  | closedErr
  | cancelledErr
deriving DecidableEq, Repr

/-- One call issued on the control-bus transport (one qdbus subprocess
invocation): setCall v is qdbus ref Set "" value v, closeCall is
qdbus ref close. -/
inductive TCall where
  | setCall (value : Int)
  | closeCall
deriving DecidableEq, Repr

/-- State of a ProgressBar instance after construction: the private
fields itercount, progress, closed and auto_close.  The opaque D-Bus
reference and the resolved qdbus executable only address the transport
and are left out of the state. -/
structure ProgressBar where
  itercount : Int
  progress : Int
  closed : Bool
  auto_close : Bool
deriving DecidableEq, Repr

/-- Result of one progress-bar operation: the signalled error (none on
normal return), the state of the object afterwards, and the transport
calls issued, in order. -/
abbrev PBResult := Option PBErr × ProgressBar × List TCall

/-- ProgressBar.close: records the closed flag and unconditionally runs
the qdbus close call (subprocess.run without check, so it never
raises). -/
def ProgressBar.close (pb : ProgressBar) : ProgressBar × List TCall :=
  ({ pb with closed := true }, [.closeCall])

/-- ProgressBar.__exit__ of the context manager: closes only when the
closed flag is not yet recorded. -/
def ProgressBar.exitCtx (pb : ProgressBar) : ProgressBar × List TCall :=
  if pb.closed then (pb, []) else ProgressBar.close pb

/-- ProgressBar.update: raises ValueError on a closed bar before any
transport call; otherwise pushes the current progress value over qdbus.
pushOk tells whether that subprocess call exits zero; when it does not,
update calls close (issuing the close transport call) and raises
CancelledError.  The internal qdbus-is-None RuntimeError guard is dead
after construction and is not modelled. -/
def ProgressBar.update (pb : ProgressBar) (pushOk : Bool) : PBResult :=
  if pb.closed then (some .closedErr, pb, [])
  else if pushOk then (none, pb, [.setCall pb.progress])
  else
    (some .cancelledErr, { pb with closed := true },
      [.setCall pb.progress, .closeCall])

/-- The progress property setter: range-checks the value (ValueError
when value < 0 or value > itercount) before any mutation, then stores
the value and calls update.  The isinstance check always passes here
because the embedded value is an integer. -/
def ProgressBar.setProgress (pb : ProgressBar) (value : Int) (pushOk : Bool) :
    PBResult :=
  if value < 0 ∨ pb.itercount < value then (some .rangeErr, pb, [])
  else ProgressBar.update { pb with progress := value } pushOk

/-- ProgressBar.increment: raises ValueError on a closed bar, otherwise
adds one to the stored progress without any range check, calls update,
and, when update returned normally and the new progress has reached
itercount on an auto-closing bar, closes. -/
def ProgressBar.increment (pb : ProgressBar) (pushOk : Bool) : PBResult :=
  if pb.closed then (some .closedErr, pb, [])
  else
    match ProgressBar.update { pb with progress := pb.progress + 1 } pushOk with
    | (some e, pb2, calls) => (some e, pb2, calls)
    | (none, pb2, calls) =>
      if pb2.itercount ≤ pb2.progress ∧ pb2.auto_close then
        (none, { pb2 with closed := true }, calls ++ [.closeCall])
      else (none, pb2, calls)

/-- Argument vector built by do_call in py_kdialog.py before the
subprocess call.  Elements are Option String so that the Python None
object can appear in the vector.  runtime_args starts as
["kdialog", "--title", title] followed by the caller arguments; when
the module-level title is None, pop(1) removes the element at index
one. -/
def do_call_args (title : Option String) (args : List String) :
    List (Option String) :=
  let runtime_args := [some "kdialog", some "--title", title] ++ args.map some
  if title = Option.none then runtime_args.eraseIdx 1 else runtime_args

/-- A parsed JSON value as produced by json.load. -/
inductive JVal where
  | jnull
  | jbool (b : Bool)
  | jnum (n : Int)
  | jstr (s : String)
  | jarr (elements : List JVal)
  | jobj (fields : List (String × JVal))

/-- The fixed sound dictionary built by Theme.__init__ in
soundthememaker.py: every recognized sound-event identifier mapped to
None. -/
def defaultSounds : List (String × Option String) := [
  ("alarm-clock-elapsed", none),
  ("audio-channel-front-center", none),
  ("audio-channel-front-left", none),
  ("audio-channel-front-right", none),
  ("audio-channel-rear-center", none),
  ("audio-channel-rear-left", none),
  ("audio-channel-rear-right", none),
  ("audio-channel-side-left", none),
  ("audio-channel-side-right", none),
  ("audio-test-signal", none),
  ("audio-volume-change", none),
  ("battery-caution", none),
  ("battery-full", none),
  ("battery-low", none),
  ("bell", none),
  ("bell-window-system", none),
  ("camera-shutter", none),
  ("complete", none),
  ("complete-media-burn", none),
  ("complete-media-error", none),
  ("completion-fail", none),
  ("completion-partial", none),
  ("completion-rotation", none),
  ("completion-success", none),
  ("desktop-login", none),
  ("desktop-logout", none),
  ("device-added", none),
  ("device-removed", none),
  ("dialog-error", none),
  ("dialog-error-critical", none),
  ("dialog-error-serious", none),
  ("dialog-error-veryserious", none),
  ("dialog-information", none),
  ("dialog-question", none),
  ("dialog-special", none),
  ("dialog-warning", none),
  ("game-over-loser", none),
  ("game-over-winner", none),
  ("media-insert-request", none),
  ("message", none),
  ("message-attention", none),
  ("message-connectivity-problem", none),
  ("message-connectivity-error", none),
  ("message-connectivity-error-serious", none),
  ("message-connectivity-lost", none),
  ("message-contact-in", none),
  ("message-contact-out", none),
  ("message-error", none),
  ("message-highlight", none),
  ("message-irc-event", none),
  ("message-lowpriority", none),
  ("message-new-email", none),
  ("message-new-instant", none),
  ("message-new-sms", none),
  ("message-sent-instant", none),
  ("network-connectivity-established", none),
  ("network-connectivity-lost", none),
  ("outcome-failure", none),
  ("outcome-success", none),
  ("phone-incoming-call", none),
  ("phone-outgoing-busy", none),
  ("phone-outgoing-calling", none),
  ("power-plug", none),
  ("power-unplug", none),
  ("print-error", none),
  ("service-login", none),
  ("service-logout", none),
  ("theme-demo", none),
  ("trash-empty", none),
  ("window-attention", none),
  ("window-close", none),
  ("window-maximized", none),
  ("window-minimized", none),
  ("window-move-end", none),
  ("window-move-start", none),
  ("window-pin", none),
  ("window-question", none),
  ("window-shaded", none),
  ("window-unpin", none),
  ("window-unshaded", none)]

/-- The fixed catalog of recognized sound-event identifiers: the key
set of the dictionary built by Theme.__init__. -/
def soundEventIds : List String := defaultSounds.map Prod.fst

/-- The Theme object of soundthememaker.py.  sounds is the Python dict
as an association list in insertion order; name and comment are JSON
values because open assigns whatever json.load produced without a type
check. -/
structure Theme where
  sounds : List (String × Option String)
  imported_sounds : List (Option String)
  name : JVal
  comment : JVal
  path : Option String
  modified : Bool

/-- Theme.__init__: all slots unset, default name and comment, no bound
path, modified cleared. -/
def Theme.init : Theme :=
  { sounds := defaultSounds
    imported_sounds := []
    name := .jstr "Sound theme"
    comment := .jstr "This is a sound theme!"
    path := none
    modified := false }

/-- Python dict item assignment d[k] = v on the sounds dict: updates
the entry in place when the key is present, appends a new entry
otherwise. -/
def dictSet (d : List (String × Option String)) (k : String)
    (v : Option String) : List (String × Option String) :=
  if d.any (fun p => p.1 == k) then
    d.map (fun p => if p.1 = k then (k, v) else p)
  else d ++ [(k, v)]

/-- Python membership test k in theme.sounds. -/
def Theme.known (t : Theme) (k : String) : Bool :=
  t.sounds.any (fun p => p.1 == k)

/-- The IMPORT_SOUND menu sentinel of soundthememaker.py. -/
def IMPORT_SOUND : String := "Import sound... "

/-- The UNSET_SOUND menu sentinel of soundthememaker.py. -/
def UNSET_SOUND : String := "Unset sound... "

/-- Result of edit_sound: done carries the theme afterwards, raised
models a Python exception escaping edit_sound (TypeError from
pathlib.Path(None) when the file picker was cancelled, IndexError when
the picker returned an empty selection list), again carrying the theme
state at the raise. -/
inductive EditSoundResult where
  | done (t : Theme)
  | raised (t : Theme)

/-- edit_sound of soundthememaker.py.  comboResp is the answer of the
combobox dialog (shown only when there are previously imported sounds);
pickResp is the answer of the getopenfilename dialog when the import
branch runs (None on cancellation, otherwise the selected path list of
which element zero is taken).  The os.chdir side effect on the success
path is external and not part of the returned state. -/
def edit_sound (t : Theme) (sound : String) (comboResp : Option String)
    (pickResp : Option (List String)) : EditSoundResult :=
  let chosen : Option String :=
    if t.imported_sounds.length + 2 > 2 then comboResp else some IMPORT_SOUND
  match chosen with
  | none => .done t
  | some s =>
    if s = IMPORT_SOUND then
      match pickResp with
      | none =>
        .raised { t with imported_sounds := t.imported_sounds ++ [none] }
      | some [] => .raised t
      | some (p :: _) =>
        let t1 := { t with imported_sounds := t.imported_sounds ++ [some p] }
        if p ≠ UNSET_SOUND then
          .done { t1 with sounds := dictSet t1.sounds sound (some p),
                          modified := true }
        else
          .done { t1 with sounds := dictSet t1.sounds sound none,
                          modified := true }
    else if s ≠ UNSET_SOUND then
      .done { t with sounds := dictSet t.sounds sound (some s),
                     modified := true }
    else
      .done { t with sounds := dictSet t.sounds sound none,
                     modified := true }

/-- set_title of soundthememaker.py: resp is the inputbox answer; on
cancellation nothing changes, otherwise the name is set and modified
recorded. -/
def set_title (t : Theme) (resp : Option String) : Theme :=
  match resp with
  | none => t
  | some s => { t with name := .jstr s, modified := true }

/-- set_comment of soundthememaker.py. -/
def set_comment (t : Theme) (resp : Option String) : Theme :=
  match resp with
  | none => t
  | some s => { t with comment := .jstr s, modified := true }

/-- The theme produced by the new action of the main menu right after
the_theme = Theme() and the_theme.modified = True, before set_title
runs. -/
def new_theme_init : Theme := { Theme.init with modified := true }

/-- What the default branch of the edit_theme loop does on exit. -/
inductive ExitDecision where
  | promptSave
  | exitNow
deriving DecidableEq, Repr

/-- The exit path of the edit_theme loop: with modified set, the
three-way save-changes confirmation is shown; otherwise the loop ends
silently. -/
def edit_exit_decision (t : Theme) : ExitDecision :=
  if t.modified then .promptSave else .exitNow

/-- JSON value written by save_theme for one sounds entry. -/
def jOfOpt : Option String → JVal
  | none => .jnull
  | some s => .jstr s

/-- The document json.dump writes in save_theme: name, comment and the
sounds dict of the theme. -/
def themeToJson (t : Theme) : JVal :=
  .jobj [("name", t.name), ("comment", t.comment),
         ("sounds", .jobj (t.sounds.map (fun p => (p.1, jOfOpt p.2))))]

/-- save_theme of soundthememaker.py.  pick is the answer of the
getsavefilename dialog, consulted only when no path is bound yet or
force_dialog is set.  Returns the theme afterwards, the file written
(destination path and JSON document) if any, and the dialog status
constant returned (CANCEL = 1, OK = 0). -/
def save_theme (t : Theme) (force_dialog : Bool) (pick : Option String) :
    Theme × Option (String × JVal) × Int :=
  let filename : Option String :=
    if t.path = none ∨ force_dialog = true then pick else t.path
  match filename with
  | none => (t, none, 1)
  | some f =>
    ({ t with modified := false, path := some f }, some (f, themeToJson t), 0)

/-- Outcome of install_theme: refused is the early return behind the
modified check (export never runs), installed carries the destination
path components handed to export_theme, nameTypeErr models the
TypeError raised when iterating a non-string theme name. -/
inductive InstallOutcome where
  | refused
  | installed (dest : List String)
  | nameTypeErr

/-- Destination derived by install_theme: the user sound-theme location
under home, with the final component obtained from the theme name by
keeping the alphanumeric characters of the name and lower-casing the
joined result. -/
def install_dest (home : String) (name : String) : List String :=
  [home, ".local", "share", "sounds",
   String.mk ((name.data.filter Char.isAlphanum).map Char.toLower)]

/-- install_theme of soundthememaker.py: refuses while modified is set,
otherwise derives the fixed destination from the theme name and runs
the quiet export there. -/
def install_theme (t : Theme) (home : String) : InstallOutcome :=
  if t.modified then .refused
  else
    match t.name with
    | .jstr s => .installed (install_dest home s)
    | _ => .nameTypeErr

/-- Failure raised inside the open validation of json_theme: notATheme
is the TypeError for a wrong document shape, missingSound the
FileNotFoundError for an absent referenced file, existsTypeError the
TypeError raised by os.path.exists on a non-string non-null sounds
value, unknownSound the ValueError for a key outside the catalog. -/
inductive OpenErr where
  | notATheme
  | missingSound
  | existsTypeError
  | unknownSound
deriving DecidableEq, Repr

/-- The for loop over sounds.items() in json_theme, threading the theme
being populated.  fs is the os.path.exists oracle.  On an exception the
error carries the theme state at the raise, because the global current
theme keeps that state. -/
def loadSounds (fs : String → Bool) :
    Theme → List (String × JVal) → Except (OpenErr × Theme) Theme
  | t, [] => .ok t
  | t, (k, v) :: rest =>
    match v with
    | .jnull =>
      if t.known k then
        loadSounds fs { t with sounds := dictSet t.sounds k none } rest
      else .error (.unknownSound, t)
    | .jstr s =>
      if fs s then
        let t1 := { t with imported_sounds := t.imported_sounds ++ [some s] }
        if t1.known k then
          loadSounds fs { t1 with sounds := dictSet t1.sounds k (some s) } rest
        else .error (.unknownSound, t1)
      else .error (.missingSound, t)
    | _ => .error (.existsTypeError, t)

/-- Python dict lookup on a parsed JSON object. -/
def jLookup (fields : List (String × JVal)) (key : String) : Option JVal :=
  match fields with
  | [] => none
  | (k, v) :: rest => if k = key then some v else jLookup rest key

/-- How json_theme ended: cancelled when the file picker returned no
file (the current theme is untouched), openError when a failure was
caught and rendered by show_exc (the open is abandoned, the edit loop
is not entered), opened when validation passed and edit_theme was
entered. -/
inductive OpenOutcome where
  | cancelled
  | openError
  | opened
deriving DecidableEq, Repr

/-- json_theme of soundthememaker.py.  old is the global current theme
before the action, pick the file chosen in the getopenfilename dialog,
doc the result of reading and json.load-ing that file (none models a
parse or read failure), fs the os.path.exists oracle.  Returns the
global current theme afterwards and the outcome.  Mirrors the source
order: the global is rebound to a fresh Theme with the chosen path
before the try block, name is assigned before comment, sounds is read
with dict.get, and every caught failure leaves the global at its state
when the exception was raised. -/
def json_theme (old : Option Theme) (pick : Option String) (doc : Option JVal)
    (fs : String → Bool) : Option Theme × OpenOutcome :=
  match pick with
  | none => (old, .cancelled)
  | some filename =>
    let t0 : Theme := { Theme.init with path := some filename }
    match doc with
    | none => (some t0, .openError)
    | some (.jobj fields) =>
      match jLookup fields "name" with
      | none => (some t0, .openError)
      | some nameVal =>
        let t1 := { t0 with name := nameVal }
        match jLookup fields "comment" with
        | none => (some t1, .openError)
        | some commentVal =>
          let t2 := { t1 with comment := commentVal }
          match jLookup fields "sounds" with
          | some (.jobj soundFields) =>
            match loadSounds fs t2 soundFields with
            | .ok t3 => (some t3, .opened)
            | .error (_, tErr) => (some tErr, .openError)
          | _ => (some t2, .openError)
    | some _ => (some t0, .openError)

/-- Theme carried by a loadSounds result, whether it returned or
raised. -/
def loadResTheme : Except (OpenErr × Theme) Theme → Theme
  | .ok t => t
  | .error (_, t) => t

/-- Repeated dict assignment of a list of entries into a base dict, the
cumulative effect of the assignments done by the loop of json_theme. -/
def foldDictSet (base : List (String × Option String))
    (entries : List (String × Option String)) :
    List (String × Option String) :=
  entries.foldl (fun b e => dictSet b e.1 e.2) base

/-- Claim C5: on an open Progress Session, set(value) is accepted iff
0 ≤ value ≤ itercount; an out-of-range value signals a range failure,
leaves the stored progress unchanged and issues no transport call,
while an in-range value never signals a range failure and, when the
push succeeds, stores the value and issues exactly the one Set
transport call. -/
theorem set_progress_range_contract (pb : ProgressBar)
    (h_open : pb.closed = false) (value : Int) (pushOk : Bool) :
    ((value < 0 ∨ pb.itercount < value) →
      ProgressBar.setProgress pb value pushOk = (some .rangeErr, pb, [])) ∧
    (0 ≤ value → value ≤ pb.itercount →
      (ProgressBar.setProgress pb value pushOk).1 ≠ some .rangeErr) ∧
    (0 ≤ value → value ≤ pb.itercount →
      ProgressBar.setProgress pb value true =
        (none, { pb with progress := value }, [TCall.setCall value])) := by
  refine ⟨?_, ?_, ?_⟩
  · intro h
    simp only [ProgressBar.setProgress, if_pos h]
  · intro h0 h1
    have h1' : value ≤ pb.itercount := h1
    have hc : ¬ (value < 0 ∨ pb.itercount < value) := by omega
    simp only [ProgressBar.setProgress, if_neg hc, ProgressBar.update, h_open]
    cases pushOk <;> simp
  · intro h0 h1
    have hc : ¬ (value < 0 ∨ pb.itercount < value) := by omega
    simp [ProgressBar.setProgress, if_neg hc, ProgressBar.update, h_open]

/-- Witness for C5 at a concrete session: itercount 5, value 7 is
rejected without mutation or transport, value 3 is stored and pushed. -/
theorem set_progress_range_contract_witness :
    ProgressBar.setProgress ⟨5, 0, false, false⟩ 7 true =
      (some .rangeErr, ⟨5, 0, false, false⟩, []) ∧
    ProgressBar.setProgress ⟨5, 0, false, false⟩ 3 true =
      (none, ⟨5, 3, false, false⟩, [TCall.setCall 3]) := by
  have h7 := set_progress_range_contract ⟨5, 0, false, false⟩ rfl 7 true
  have h3 := set_progress_range_contract ⟨5, 0, false, false⟩ rfl 3 true
  exact ⟨h7.1 (by decide), h3.2.2 (by decide) (by decide)⟩

/-- Claim C9: setting an in-range value on a closed session stores the
new value into the progress field first and only then signals the
usage failure; no transport call is issued, so the recorded progress
can differ from the last value ever pushed. -/
theorem set_on_closed_mutates_before_raise (pb : ProgressBar)
    (h : pb.closed = true) (value : Int) (h0 : 0 ≤ value)
    (h1 : value ≤ pb.itercount) (pushOk : Bool) :
    ProgressBar.setProgress pb value pushOk =
      (some .closedErr, { pb with progress := value }, []) := by
  have h1' : value ≤ pb.itercount := h1
  have hc : ¬ (value < 0 ∨ pb.itercount < value) := by omega
  simp [ProgressBar.setProgress, if_neg hc, ProgressBar.update, h]

/-- Witness for C9: a closed session with stored progress 2 ends up
with stored progress 4 after the failing set(4), while no transport
call carried the value 4. -/
theorem set_on_closed_mutates_before_raise_witness :
    ProgressBar.setProgress ⟨5, 2, true, false⟩ 4 true =
      (some .closedErr, ⟨5, 4, true, false⟩, []) ∧
    (4 : Int) ≠ 2 := by
  refine ⟨?_, by decide⟩
  exact set_on_closed_mutates_before_raise ⟨5, 2, true, false⟩ rfl 4
    (by decide) (by decide) true

/-- Counterexample to claim C1 as stated: on an open session with
progress already equal to itercount, increment is not equivalent to
set(progress + 1): it signals no range failure, moves progress to
itercount + 1 and reaches the transport, while set(progress + 1)
signals the range failure without mutation or transport. -/
theorem increment_not_set_counterexample :
    ProgressBar.increment ⟨1, 1, false, false⟩ true ≠
      ProgressBar.setProgress ⟨1, 1, false, false⟩ (1 + 1) true ∧
    ProgressBar.increment ⟨1, 1, false, false⟩ true =
      (none, ⟨1, 2, false, false⟩, [TCall.setCall 2]) ∧
    ProgressBar.setProgress ⟨1, 1, false, false⟩ (1 + 1) true =
      (some .rangeErr, ⟨1, 1, false, false⟩, []) := by decide

/-- Claim C1 amended: increment performs no range check.  On an open
session whose progress already equals itercount, and with the push
succeeding, increment signals no failure, stores itercount + 1 (so the
invariant progress ≤ itercount is not preserved), issues the Set
transport call carrying itercount + 1, and closes afterwards exactly
when the session is auto-closing. -/
theorem increment_unguarded (pb : ProgressBar) (h_open : pb.closed = false)
    (hfull : pb.progress = pb.itercount) :
    (ProgressBar.increment pb true).1 = none ∧
    (ProgressBar.increment pb true).2.1.progress = pb.itercount + 1 ∧
    (ProgressBar.increment pb true).2.1.closed = pb.auto_close ∧
    (ProgressBar.increment pb true).2.2 =
      TCall.setCall (pb.itercount + 1) ::
        (if pb.auto_close then [TCall.closeCall] else []) := by
  obtain ⟨ic, pr, cl, ac⟩ := pb
  have hcl : cl = false := h_open
  have hpr : pr = ic := hfull
  subst hcl
  subst hpr
  have hle : pr ≤ pr + 1 := by omega
  cases ac <;> simp [ProgressBar.increment, ProgressBar.update, hle]

/-- Witness for the amended C1 at a concrete auto-closing session full
at itercount 2. -/
theorem increment_unguarded_witness :
    (ProgressBar.increment ⟨2, 2, false, true⟩ true).1 = none ∧
    (ProgressBar.increment ⟨2, 2, false, true⟩ true).2.1.progress = 3 ∧
    (ProgressBar.increment ⟨2, 2, false, true⟩ true).2.2 =
      [TCall.setCall 3, TCall.closeCall] := by
  have h := increment_unguarded ⟨2, 2, false, true⟩ rfl rfl
  exact ⟨h.1, by simpa using h.2.1, by simpa using h.2.2.2⟩

/-- Counterexample to claim C2 as stated: calling close on an already
closed session issues another close instruction on the transport, so a
transport call is issued after close has already been called. -/
theorem double_close_counterexample :
    (⟨1, 0, true, false⟩ : ProgressBar).closed = true ∧
    (ProgressBar.close ⟨1, 0, true, false⟩).2 = [TCall.closeCall] := by
  decide

/-- Claim C2 amended: after close, increment signals the usage failure
with no state change and no transport call, and an in-range set
signals the usage failure with no transport call (though it still
mutates the stored progress); the context-manager exit is guarded by
the closed flag and issues nothing, but a direct second close call is
not guarded and issues another close instruction on the transport. -/
theorem closed_session_ops (pb : ProgressBar) (h : pb.closed = true)
    (value : Int) (pushOk : Bool) :
    ProgressBar.increment pb pushOk = (some .closedErr, pb, []) ∧
    (0 ≤ value → value ≤ pb.itercount →
      ProgressBar.setProgress pb value pushOk =
        (some .closedErr, { pb with progress := value }, [])) ∧
    ProgressBar.close pb = (pb, [TCall.closeCall]) ∧
    ProgressBar.exitCtx pb = (pb, []) := by
  obtain ⟨ic, pr, cl, ac⟩ := pb
  have hcl : cl = true := h
  subst hcl
  refine ⟨?_, ?_, ?_, ?_⟩
  · simp [ProgressBar.increment]
  · intro h0 h1
    have h1' : value ≤ ic := h1
    have hc : ¬ (value < 0 ∨ ic < value) := by omega
    simp [ProgressBar.setProgress, if_neg hc, ProgressBar.update]
  · simp [ProgressBar.close]
  · simp [ProgressBar.exitCtx]

/-- Witness for the amended C2 at a concrete closed session. -/
theorem closed_session_ops_witness :
    ProgressBar.increment ⟨3, 1, true, false⟩ true =
      (some .closedErr, ⟨3, 1, true, false⟩, []) ∧
    ProgressBar.setProgress ⟨3, 1, true, false⟩ 2 true =
      (some .closedErr, ⟨3, 2, true, false⟩, []) ∧
    ProgressBar.close ⟨3, 1, true, false⟩ =
      (⟨3, 1, true, false⟩, [TCall.closeCall]) ∧
    ProgressBar.exitCtx ⟨3, 1, true, false⟩ = (⟨3, 1, true, false⟩, []) := by
  have h := closed_session_ops ⟨3, 1, true, false⟩ rfl 2 true
  exact ⟨h.1, h.2.1 (by decide) (by decide), h.2.2.1, h.2.2.2⟩

/-- Claim C4, evaluated: with the title suppressed (set to None),
do_call removes only the element at index one, so the spawned argument
vector still contains the leftover None between the executable name
and the caller arguments instead of omitting the pair. -/
theorem title_none_leaves_none_in_argv :
    do_call_args none ["--msgbox", "hi"] =
      [some "kdialog", none, some "--msgbox", some "hi"] ∧
    ∀ args : List String,
      do_call_args none args = some "kdialog" :: none :: args.map some := by
  exact ⟨rfl, fun args => rfl⟩

/-- Claim C7: install refuses outright while modified is set, and
otherwise exports to the user sound-theme location with the final path
component obtained from the theme name by keeping only its
alphanumeric characters and lower-casing the result. -/
theorem install_contract (t : Theme) (home s : String)
    (hname : t.name = .jstr s) :
    (t.modified = true → install_theme t home = .refused) ∧
    (t.modified = false →
      install_theme t home = .installed [home, ".local", "share", "sounds",
        String.mk ((s.data.filter Char.isAlphanum).map Char.toLower)]) := by
  constructor
  · intro h
    simp [install_theme, h]
  · intro h
    simp [install_theme, h, hname, install_dest]

/-- Witness for C7: the theme named My Cool Theme! installs under the
final component mycooltheme once saved, and is refused while
modified. -/
theorem install_contract_witness :
    install_theme { Theme.init with name := JVal.jstr "My Cool Theme!" }
      "/home/user" =
      .installed ["/home/user", ".local", "share", "sounds", "mycooltheme"] ∧
    install_theme
      { Theme.init with
        name := JVal.jstr "My Cool Theme!",
        modified := true } "/home/user" = .refused := by
  constructor
  · have h := (install_contract
      { Theme.init with name := JVal.jstr "My Cool Theme!" }
      "/home/user" "My Cool Theme!" rfl).2 rfl
    rw [h]
    rfl
  · exact (install_contract
      { Theme.init with
        name := JVal.jstr "My Cool Theme!",
        modified := true }
      "/home/user" "My Cool Theme!" rfl).1 rfl

/-- Claim C8: a fresh Theme starts with modified cleared, but the new
action sets modified right after construction, before the name prompt,
so leaving the edit loop immediately reaches the save-changes
confirmation whatever the name prompt answered. -/
theorem new_theme_prompts_save (resp : Option String) :
    Theme.init.modified = false ∧
    new_theme_init.modified = true ∧
    edit_exit_decision new_theme_init = .promptSave ∧
    edit_exit_decision (set_title new_theme_init resp) = .promptSave := by
  refine ⟨rfl, rfl, rfl, ?_⟩
  cases resp <;> rfl

/-- Claim C10: when the import-new branch of edit_sound runs and the
file picker is cancelled, the absent value is appended to the
imported-paths list and the call raises (pathlib.Path of None) instead
of being a no-op: the theme is left changed. -/
theorem import_cancel_not_noop (t : Theme) (sound : String)
    (comboResp : Option String)
    (h : t.imported_sounds = [] ∨ comboResp = some IMPORT_SOUND) :
    edit_sound t sound comboResp none =
      .raised { t with imported_sounds := t.imported_sounds ++ [none] } := by
  rcases h with h | h
  · simp [edit_sound, h]
  · by_cases hlen : t.imported_sounds.length + 2 > 2
    · simp [edit_sound, hlen, h]
    · simp [edit_sound, hlen]

/-- Witness for C10 at a fresh theme: cancelling the picker for the
bell slot appends None and raises. -/
theorem import_cancel_not_noop_witness :
    edit_sound Theme.init "bell" none none =
      .raised { Theme.init with imported_sounds := [none] } := by
  have h := import_cancel_not_noop Theme.init "bell" none (Or.inl rfl)
  simpa using h

/-- Folding the pair predicate of a key search through the key list. -/
theorem any_fst_eq_map (l : List (String × Option String)) (k : String) :
    l.any (fun p => p.1 == k) = (l.map Prod.fst).any (fun s => s == k) := by
  induction l with
  | nil => rfl
  | cons p rest ih => simp [ih]

/-- The in-place update branch of dict assignment does not change the
key list. -/
theorem mapUpdate_keys (d : List (String × Option String)) (k : String)
    (v : Option String) :
    (d.map (fun p => if p.1 = k then (k, v) else p)).map Prod.fst =
      d.map Prod.fst := by
  rw [List.map_map]
  refine List.map_congr_left ?_
  intro p _
  by_cases hp : p.1 = k
  · simp [Function.comp, hp]
  · simp [Function.comp, hp]

/-- Dict assignment on a present key does not change the key list. -/
theorem dictSet_keys (d : List (String × Option String)) (k : String)
    (v : Option String) (h : d.any (fun p => p.1 == k) = true) :
    (dictSet d k v).map Prod.fst = d.map Prod.fst := by
  unfold dictSet
  rw [if_pos h]
  exact mapUpdate_keys d k v

/-- Membership characterization of the Python membership test. -/
theorem known_iff_mem (t : Theme) (k : String) :
    t.known k = true ↔ k ∈ t.sounds.map Prod.fst := by
  simp [Theme.known, List.any_eq_true, List.mem_map, beq_iff_eq]

/-- Assigning a present key keeps every membership test unchanged. -/
theorem known_dictSet (t : Theme) (k k' : String) (v : Option String)
    (hk : t.known k = true) :
    Theme.known { t with sounds := dictSet t.sounds k v } k' = t.known k' := by
  show (dictSet t.sounds k v).any (fun p => p.1 == k') =
    t.sounds.any (fun p => p.1 == k')
  rw [any_fst_eq_map, any_fst_eq_map, dictSet_keys t.sounds k v hk]

/-- The loop of json_theme never changes the bound path, whether it
returns or raises. -/
theorem loadSounds_path (fs : String → Bool) (l : List (String × JVal)) :
    ∀ t : Theme, (loadResTheme (loadSounds fs t l)).path = t.path := by
  induction l with
  | nil => intro t; rfl
  | cons e rest ih =>
    intro t
    obtain ⟨k, v⟩ := e
    cases v with
    | jnull =>
      cases hk : t.known k with
      | true => simp [loadSounds, hk, ih]
      | false => simp [loadSounds, hk, loadResTheme]
    | jstr s =>
      cases hfs : fs s with
      | true =>
        cases hk : Theme.known
            { t with imported_sounds := t.imported_sounds ++ [some s] } k with
        | true => simp [loadSounds, hfs, hk, ih]
        | false => simp [loadSounds, hfs, hk, loadResTheme]
      | false => simp [loadSounds, hfs, loadResTheme]
    | jbool b => simp [loadSounds, loadResTheme]
    | jnum n => simp [loadSounds, loadResTheme]
    | jarr es => simp [loadSounds, loadResTheme]
    | jobj fields => simp [loadSounds, loadResTheme]

/-- If the loop of json_theme returns normally, every key it visited
passed the membership test against the initial theme. -/
theorem loadSounds_ok_known (fs : String → Bool)
    (l : List (String × JVal)) :
    ∀ (t t' : Theme), loadSounds fs t l = .ok t' →
      ∀ k ∈ l.map Prod.fst, t.known k = true := by
  induction l with
  | nil =>
    intro t t' _ k hk
    simp at hk
  | cons e rest ih =>
    intro t t' hok k hmem
    obtain ⟨k1, v⟩ := e
    rw [List.map_cons, List.mem_cons] at hmem
    cases v with
    | jnull =>
      cases hk1 : t.known k1 with
      | false => simp [loadSounds, hk1] at hok
      | true =>
        rcases hmem with rfl | hmem
        · exact hk1
        · simp only [loadSounds, hk1, if_true] at hok
          have h2 := ih _ t' hok k hmem
          rwa [known_dictSet t k1 k none hk1] at h2
    | jstr s =>
      cases hfs : fs s with
      | false => simp [loadSounds, hfs] at hok
      | true =>
        cases hk1 : Theme.known
            { t with imported_sounds := t.imported_sounds ++ [some s] } k1 with
        | false => simp [loadSounds, hfs, hk1] at hok
        | true =>
          rcases hmem with rfl | hmem
          · exact hk1
          · simp only [loadSounds, hfs, hk1, if_true] at hok
            have h2 := ih _ t' hok k hmem
            rwa [known_dictSet
              { t with imported_sounds := t.imported_sounds ++ [some s] }
              k1 k (some s) hk1] at h2
    | jbool b => simp [loadSounds] at hok
    | jnum n => simp [loadSounds] at hok
    | jarr es => simp [loadSounds] at hok
    | jobj fields => simp [loadSounds] at hok

/-- On the raising path, the loop of json_theme keeps the bound path
of the theme it was given. -/
theorem loadSounds_error_path (fs : String → Bool)
    (l : List (String × JVal)) (t tErr : Theme) (e : OpenErr)
    (h : loadSounds fs t l = .error (e, tErr)) : tErr.path = t.path := by
  have hp := loadSounds_path fs l t
  rw [h] at hp
  exact hp

/-- Claim C3 amended: opening a document whose sounds object holds a
key outside the catalog always fails (the edit loop is not entered),
but the global current theme has already been replaced: a
partially-populated theme bound to the chosen path remains installed
as current. -/
theorem open_unknown_key_fails_but_binds (old : Option Theme) (f : String)
    (fields soundFields : List (String × JVal)) (fs : String → Bool)
    (k : String) (hs : jLookup fields "sounds" = some (.jobj soundFields))
    (hk : k ∈ soundFields.map Prod.fst) (hunk : k ∉ soundEventIds) :
    (json_theme old (some f) (some (.jobj fields)) fs).2 = .openError ∧
    ∃ t, (json_theme old (some f) (some (.jobj fields)) fs).1 = some t ∧
      t.path = some f := by
  simp only [json_theme]
  cases hn : jLookup fields "name" with
  | none =>
    simp only [hn]
    exact ⟨by trivial, _, rfl, rfl⟩
  | some nameVal =>
    simp only [hn]
    cases hc : jLookup fields "comment" with
    | none =>
      simp only [hc]
      exact ⟨by trivial, _, rfl, rfl⟩
    | some commentVal =>
      simp only [hc, hs]
      split
      · next t3 hload =>
        exfalso
        have hkn := loadSounds_ok_known fs soundFields _ t3 hload k hk
        rw [known_iff_mem] at hkn
        exact hunk hkn
      · next e tErr hload =>
        refine ⟨rfl, tErr, rfl, ?_⟩
        have hp := loadSounds_error_path fs soundFields _ tErr e hload
        rw [hp]

/-- Counterexample to claim C3 as stated: a document with the unknown
sound id bogus makes the open fail, yet the current theme afterwards
is a theme bound to the chosen path, not the previous current theme. -/
theorem open_unknown_key_counterexample :
    (json_theme none (some "/tmp/t.json")
      (some (.jobj [("name", .jstr "n"), ("comment", .jstr "c"),
        ("sounds", .jobj [("bogus", .jnull)])])) (fun _ => false)).2 =
      .openError ∧
    Option.map Theme.path
      (json_theme none (some "/tmp/t.json")
        (some (.jobj [("name", .jstr "n"), ("comment", .jstr "c"),
          ("sounds", .jobj [("bogus", .jnull)])])) (fun _ => false)).1 =
      some (some "/tmp/t.json") := by
  exact ⟨rfl, rfl⟩

/-- Witness for the amended C3 at the bogus-key document. -/
theorem open_unknown_key_fails_but_binds_witness :
    (json_theme none (some "/tmp/t.json")
      (some (.jobj [("name", .jstr "nm"), ("comment", .jstr "cm"),
        ("sounds", .jobj [("bogus", .jstr "/tmp/a.wav")])]))
      (fun _ => true)).2 = .openError ∧
    ∃ t, (json_theme none (some "/tmp/t.json")
      (some (.jobj [("name", .jstr "nm"), ("comment", .jstr "cm"),
        ("sounds", .jobj [("bogus", .jstr "/tmp/a.wav")])]))
      (fun _ => true)).1 = some t ∧ t.path = some "/tmp/t.json" := by
  exact open_unknown_key_fails_but_binds none "/tmp/t.json" _ _ (fun _ => true)
    "bogus" rfl (by decide) (by decide)

/-- Dict assignment distributes over a leading entry with a different
key. -/
theorem dictSet_cons_ne (k k2 : String) (v v2 : Option String)
    (b : List (String × Option String)) (h : k ≠ k2) :
    dictSet ((k, v) :: b) k2 v2 = (k, v) :: dictSet b k2 v2 := by
  unfold dictSet
  have hbeq : (k == k2) = false := beq_eq_false_iff_ne.mpr h
  simp only [List.any_cons, hbeq, Bool.false_or]
  cases hb : b.any (fun p => p.1 == k2) with
  | true => simp [hb, h]
  | false => simp [hb]

/-- Folding assignments whose keys avoid the head entry keeps that
entry in place. -/
theorem foldDictSet_cons_of_notmem :
    ∀ (entries : List (String × Option String)) (k : String)
      (v : Option String) (b : List (String × Option String)),
      k ∉ entries.map Prod.fst →
      foldDictSet ((k, v) :: b) entries = (k, v) :: foldDictSet b entries := by
  intro entries
  induction entries with
  | nil => intro k v b _; rfl
  | cons e rest ih =>
    intro k v b h
    obtain ⟨k2, v2⟩ := e
    simp only [List.map_cons, List.mem_cons, not_or] at h
    obtain ⟨hne, hrest⟩ := h
    show foldDictSet (dictSet ((k, v) :: b) k2 v2) rest =
      (k, v) :: foldDictSet (dictSet b k2 v2) rest
    rw [dictSet_cons_ne k k2 v v2 b hne]
    exact ih k v (dictSet b k2 v2) hrest

/-- The in-place update map is the identity when the key is absent. -/
theorem map_update_of_notmem (b : List (String × Option String))
    (k : String) (v : Option String) (h : k ∉ b.map Prod.fst) :
    b.map (fun p => if p.1 = k then (k, v) else p) = b := by
  induction b with
  | nil => rfl
  | cons p rest ih =>
    simp only [List.map_cons, List.mem_cons, not_or] at h
    obtain ⟨h1, h2⟩ := h
    have hp : p.1 ≠ k := fun hh => h1 hh.symm
    simp [hp, ih h2]

/-- Folding one assignment per key over a base dict with exactly the
same keys, in the same order and without duplicates, reproduces the
entry list being assigned. -/
theorem foldDictSet_self :
    ∀ (entries base : List (String × Option String)),
      base.map Prod.fst = entries.map Prod.fst →
      (entries.map Prod.fst).Nodup →
      foldDictSet base entries = entries := by
  intro entries
  induction entries with
  | nil =>
    intro base hkeys _
    rw [List.map_nil, List.map_eq_nil_iff] at hkeys
    subst hkeys
    rfl
  | cons e rest ih =>
    intro base hkeys hnd
    obtain ⟨k, v⟩ := e
    cases base with
    | nil => simp at hkeys
    | cons p base2 =>
      obtain ⟨pk, pv⟩ := p
      simp only [List.map_cons, List.cons.injEq] at hkeys
      obtain ⟨hpk, hkeys2⟩ := hkeys
      simp only [List.map_cons, List.nodup_cons] at hnd
      obtain ⟨hknot, hnd2⟩ := hnd
      subst hpk
      have hnotb2 : pk ∉ base2.map Prod.fst := by rw [hkeys2]; exact hknot
      have hany : ((pk, pv) :: base2).any (fun q => q.1 == pk) = true := by
        simp [List.any_cons]
      have hdict : dictSet ((pk, pv) :: base2) pk v = (pk, v) :: base2 := by
        unfold dictSet
        rw [if_pos hany]
        simp only [List.map_cons, if_pos]
        rw [map_update_of_notmem base2 pk v hnotb2]
      show foldDictSet (dictSet ((pk, pv) :: base2) pk v) rest = (pk, v) :: rest
      rw [hdict, foldDictSet_cons_of_notmem rest pk v base2 hknot,
        ih base2 hkeys2 hnd2]

/-- Running the loop of json_theme over the serialized form of an
entry list whose keys all pass the membership test, and whose
referenced files all exist, succeeds: the resulting sounds dict is the
fold of the assignments, and every non-null value is appended to the
imported list in order. -/
theorem jOfOpt_none : jOfOpt none = JVal.jnull := rfl

theorem jOfOpt_some (s : String) : jOfOpt (some s) = JVal.jstr s := rfl

theorem loadSounds_serialized (fs : String → Bool) :
    ∀ (entries : List (String × Option String)) (t : Theme),
      (∀ k ∈ entries.map Prod.fst, t.known k = true) →
      (∀ p ∈ entries, ∀ s, p.2 = some s → fs s = true) →
      loadSounds fs t (entries.map (fun p => (p.1, jOfOpt p.2))) =
        .ok { t with
              sounds := foldDictSet t.sounds entries,
              imported_sounds := t.imported_sounds ++
                (entries.filterMap Prod.snd).map some } := by
  intro entries
  induction entries with
  | nil =>
    intro t _ _
    simp [foldDictSet, loadSounds]
  | cons e rest ih =>
    intro t hknown hfiles
    obtain ⟨k, v⟩ := e
    cases v with
    | none =>
      have hk : t.known k = true := hknown k (by simp)
      simp only [List.map_cons, jOfOpt_none, loadSounds, hk, if_true]
      have hknown2 : ∀ k2 ∈ rest.map Prod.fst,
          Theme.known { t with sounds := dictSet t.sounds k none } k2 =
            true := by
        intro k2 hk2
        exact (known_dictSet t k k2 none hk).trans
          (hknown k2 (by simp [hk2]))
      have hfiles2 : ∀ p ∈ rest, ∀ s, p.2 = some s → fs s = true := by
        intro p hp s hs
        exact hfiles p (by simp [hp]) s hs
      rw [ih { t with sounds := dictSet t.sounds k none } hknown2 hfiles2]
      rfl
    | some s =>
      have hk : t.known k = true := hknown k (by simp)
      have hfs : fs s = true := hfiles (k, some s) (by simp) s rfl
      have hk1 : Theme.known
          { t with imported_sounds := t.imported_sounds ++ [some s] } k =
          true := hk
      simp only [List.map_cons, jOfOpt_some, loadSounds, hfs, hk1, if_true]
      have hknown2 : ∀ k2 ∈ rest.map Prod.fst,
          Theme.known
            { t with sounds := dictSet t.sounds k (some s),
                     imported_sounds := t.imported_sounds ++ [some s] } k2 =
            true := by
        intro k2 hk2
        exact (known_dictSet
          { t with imported_sounds := t.imported_sounds ++ [some s] }
          k k2 (some s) hk1).trans (hknown k2 (by simp [hk2]))
      have hfiles2 : ∀ p ∈ rest, ∀ s2, p.2 = some s2 → fs s2 = true := by
        intro p hp s2 hs2
        exact hfiles p (by simp [hp]) s2 hs2
      rw [ih { t with sounds := dictSet t.sounds k (some s),
                      imported_sounds := t.imported_sounds ++ [some s] }
        hknown2 hfiles2]
      show Except.ok
          { t with
            sounds := foldDictSet (dictSet t.sounds k (some s)) rest,
            imported_sounds := (t.imported_sounds ++ [some s]) ++
              (rest.filterMap Prod.snd).map some } =
        Except.ok
          { t with
            sounds := foldDictSet t.sounds ((k, some s) :: rest),
            imported_sounds := t.imported_sounds ++
              (((k, some s) :: rest).filterMap Prod.snd).map some }
      rw [show (((k, some s) :: rest).filterMap Prod.snd).map some =
        some s :: (rest.filterMap Prod.snd).map some from rfl]
      rw [List.append_assoc]
      rfl

/-- The fixed catalog has no repeated identifier. -/
theorem soundEventIds_nodup : soundEventIds.Nodup := by decide

/-- Claim C6: for a theme holding the full fixed key set, whose bound
sound files all exist, and with a bound path so that save needs no
dialog, saving writes the JSON document and clears modified with the
path kept at the destination, and reopening that same document yields
a theme with identical name, comment and sound mapping. -/
theorem save_then_open_round_trip (t : Theme) (f : String)
    (fs : String → Bool) (old : Option Theme) (hpath : t.path = some f)
    (hkeys : t.sounds.map Prod.fst = soundEventIds)
    (hfiles : ∀ p ∈ t.sounds, ∀ s, p.2 = some s → fs s = true) :
    (save_theme t false none).1.modified = false ∧
    (save_theme t false none).1.path = some f ∧
    (save_theme t false none).2.1 = some (f, themeToJson t) ∧
    ∃ t2, json_theme old (some f) (some (themeToJson t)) fs =
        (some t2, .opened) ∧
      t2.name = t.name ∧ t2.comment = t.comment ∧ t2.sounds = t.sounds := by
  have hsave : save_theme t false none =
      ({ t with modified := false, path := some f },
        some (f, themeToJson t), 0) := by
    unfold save_theme
    rw [hpath]
    simp
  have hfold : foldDictSet defaultSounds t.sounds = t.sounds :=
    foldDictSet_self t.sounds defaultSounds (by rw [hkeys]; rfl)
      (by rw [hkeys]; exact soundEventIds_nodup)
  have hknown : ∀ k ∈ t.sounds.map Prod.fst,
      Theme.known
        (Theme.mk defaultSounds [] t.name t.comment (some f) false) k =
        true := by
    intro k hmem
    rw [known_iff_mem]
    rw [hkeys] at hmem
    exact hmem
  have hload := loadSounds_serialized fs t.sounds
    (Theme.mk defaultSounds [] t.name t.comment (some f) false) hknown hfiles
  have hload2 : loadSounds fs
      (Theme.mk defaultSounds [] t.name t.comment (some f) false)
      (t.sounds.map (fun p => (p.1, jOfOpt p.2))) =
      .ok (Theme.mk t.sounds ((t.sounds.filterMap Prod.snd).map some)
        t.name t.comment (some f) false) := by
    rw [hload]
    show Except.ok
        (Theme.mk (foldDictSet defaultSounds t.sounds)
          ([] ++ (t.sounds.filterMap Prod.snd).map some)
          t.name t.comment (some f) false) = _
    rw [hfold, List.nil_append]
  refine ⟨by rw [hsave], by rw [hsave], by rw [hsave],
    Theme.mk t.sounds ((t.sounds.filterMap Prod.snd).map some)
      t.name t.comment (some f) false, ?_, rfl, rfl, rfl⟩
  show (match loadSounds fs
      (Theme.mk defaultSounds [] t.name t.comment (some f) false)
      (t.sounds.map (fun p => (p.1, jOfOpt p.2))) with
    | .ok t3 => (some t3, OpenOutcome.opened)
    | .error (_, tErr) => (some tErr, OpenOutcome.openError)) =
    (some (Theme.mk t.sounds ((t.sounds.filterMap Prod.snd).map some)
      t.name t.comment (some f) false), OpenOutcome.opened)
  rw [hload2]

/-- Witness for C6 at a concrete theme with the default (all-unset)
mapping and a bound path. -/
theorem save_then_open_round_trip_witness :
    (save_theme { Theme.init with path := some "/tmp/x.json" }
      false none).1.modified = false ∧
    (save_theme { Theme.init with path := some "/tmp/x.json" }
      false none).1.path = some "/tmp/x.json" ∧
    ∃ t2, json_theme none (some "/tmp/x.json")
        (some (themeToJson { Theme.init with path := some "/tmp/x.json" }))
        (fun _ => false) = (some t2, .opened) ∧
      t2.name = ({ Theme.init with path := some "/tmp/x.json" } : Theme).name ∧
      t2.comment =
        ({ Theme.init with path := some "/tmp/x.json" } : Theme).comment ∧
      t2.sounds =
        ({ Theme.init with path := some "/tmp/x.json" } : Theme).sounds := by
  have h := save_then_open_round_trip
    { Theme.init with path := some "/tmp/x.json" } "/tmp/x.json"
    (fun _ => false) none rfl rfl ?hf
  · exact ⟨h.1, h.2.1, h.2.2.2⟩
  case hf =>
    intro p hp s hs
    have hnone : ∀ q ∈ defaultSounds, q.2 = Option.none := by decide
    rw [hnone p hp] at hs
    cases hs

end SoundThemeMaker
